import Mathlib

/-!
Verification of the champion-rotation serverless backend.

The repository consists of two Firebase Functions source files:
* the main module (callable proxy `championRotation`, scheduled job
  `checkChampionRotation`, helpers `fetchRiotRotation` and
  `resolveRiotApiKey`), and
* a legacy HTTP proxy with the same fetch/error-extraction logic.

We embed the data model and the handlers shallowly: each external
service call (upstream fetch, store read, store write, message publish)
is represented by an explicit outcome supplied in an environment, and
the handlers are total Lean functions from environments and store state
to an outcome that records the side effects performed (store writes and
publish attempts) and whether an exception escaped the handler.
-/

namespace Rotation

/-- JavaScript value possibly sitting in the `freeChampionIds` field of the
upstream JSON payload: absent, null, some non-array value, or an array of
integers. -/
inductive IdsField
  | absent
  | null
  | nonArray
  | arr (ids : List Int)
  deriving DecidableEq, Repr

/-- Upstream JSON payload.  The only field the code consumes is
`freeChampionIds`; every other field is opaque and modelled by a single
abstract component `otherFields`. -/
structure Payload where
  freeChampionIds : IdsField
  otherFields : Nat
  deriving DecidableEq, Repr

/-- Mirror of `Array.isArray(payload.freeChampionIds) ?
payload.freeChampionIds.slice() : []` in the scheduled handler: a
non-array field (absent, null, or otherwise) is replaced by the empty
list. -/
def computeIds (p : Payload) : List Int :=
  match p.freeChampionIds with
  | .arr ids => ids
  | _ => []

/-- Mirror of `ids.sort((a, b) => a - b)`: sort ascending numerically. -/
def sortIds (ids : List Int) : List Int :=
  List.insertionSort (· ≤ ·) ids

/-- Mirror of `ids.join(",")`: each integer rendered in decimal, joined
with a comma separator. -/
def joinIds (ids : List Int) : String :=
  String.intercalate "," (ids.map toString)

/-- The signature computed by the scheduled handler from a payload:
copy the id sequence (empty if absent or not an array), sort ascending
numerically, join with a comma. -/
def computeSignature (p : Payload) : String :=
  joinIds (sortIds (computeIds p))

/-! ## Key resolver -/

/-- Inputs to `resolveRiotApiKey`: the managed secret and the three
environment variables.  `secretValue = none` models
`riotKeySecret.value()` throwing (the code catches that and logs a
warning); `some s` models it returning the string `s`. -/
structure KeyEnv where
  secretValue : Option String
  RIOT_KEY : Option String
  RIOT_API_KEY : Option String
  RIOT_TOKEN : Option String
  deriving DecidableEq, Repr

/-- JavaScript truthiness of a possibly-undefined string: `undefined`
and the empty string are falsy. -/
def jsTruthy (v : Option String) : Bool :=
  match v with
  | some s => !(s = "")
  | none => false

/-- Mirror of the JavaScript `a || b` operator on possibly-undefined
strings: yields `a` when truthy, otherwise `b`. -/
def jsOr (a b : Option String) : Option String :=
  if jsTruthy a then a else b

/-- Result of `resolveRiotApiKey`: the resolved key value (a JavaScript
value, possibly undefined or empty) and whether the secret-read warning
was logged. -/
structure ResolveResult where
  key : Option String
  warnedSecret : Bool
  deriving DecidableEq, Repr

/-- Mirror of `resolveRiotApiKey`: try the managed secret (on a throw,
log a warning and continue with `undefined`), then fall back through the
`||` chain over `RIOT_KEY`, `RIOT_API_KEY`, `RIOT_TOKEN`. -/
def resolveRiotApiKey (env : KeyEnv) : ResolveResult :=
  match env.secretValue with
  | some s => ⟨jsOr (some s) (jsOr env.RIOT_KEY (jsOr env.RIOT_API_KEY env.RIOT_TOKEN)), false⟩
  | none => ⟨jsOr none (jsOr env.RIOT_KEY (jsOr env.RIOT_API_KEY env.RIOT_TOKEN)), true⟩

/-! ## Upstream fetcher -/

/-- The four rate-limit response headers extracted on every upstream
call (each possibly absent). -/
structure RateInfo where
  app : Option String
  appCount : Option String
  method : Option String
  methodCount : Option String
  deriving DecidableEq, Repr

/-- The body of a non-2xx upstream response, as seen by the message
extraction code: either `JSON.parse` succeeds — giving the value of
`parsed.status && parsed.status.message` (as a JavaScript value, absent
when `status` or `status.message` is missing), the value of
`parsed.message`, and the string `JSON.stringify(parsed)` — or
`JSON.parse` throws and only the raw text is available. -/
inductive ErrorBody
  | json (statusMessage : Option String) (topMessage : Option String) (dump : String)
  | text (raw : String)
  deriving DecidableEq, Repr

/-- Mirror of `.slice(0, 2000)` on a string: the first 2000 characters. -/
def truncate2000 (s : String) : String :=
  ⟨s.data.take 2000⟩

/-- Mirror of the upstream-message extraction in `fetchRiotRotation`:
`(parsed.status && parsed.status.message) || parsed.message ||
JSON.stringify(parsed).slice(0, 2000)` when the body parses as JSON,
otherwise `errorBody.slice(0, 2000)`. -/
def extractUpstreamMessage (body : ErrorBody) : String :=
  match body with
  | .json statusMessage topMessage dump =>
    match jsOr statusMessage (jsOr topMessage (some (truncate2000 dump))) with
    | some s => s
    | none => ""
  | .text raw => truncate2000 raw

/-- Outcome of the single `fetch` call made by `fetchRiotRotation`:
a 2xx response with a parsed payload, a non-2xx response with a status
code and an error body, or the fetch itself failing (network-level
failure, no status). -/
inductive FetchEnv
  | ok (payload : Payload) (rateInfo : RateInfo)
  | httpError (status : Nat) (rateInfo : RateInfo) (body : ErrorBody)
  | networkFailure
  deriving DecidableEq, Repr

/-- The error thrown out of `fetchRiotRotation` on a non-2xx status
(carrying status, rate info, and the extracted upstream message), or a
network-level error with none of those properties. -/
inductive RiotError
  | upstream (status : Nat) (rateInfo : RateInfo) (upstreamMessage : String)
  | network
  deriving DecidableEq, Repr

/-- Mirror of `fetchRiotRotation`: on a 2xx response return the payload
and rate info; on a non-2xx response throw an error carrying the status,
rate info, and extracted upstream message; a network failure propagates
as an error without a status. -/
def fetchRiotRotation (env : FetchEnv) : Except RiotError (Payload × RateInfo) :=
  match env with
  | .ok payload rateInfo => .ok (payload, rateInfo)
  | .httpError status rateInfo body =>
    .error (.upstream status rateInfo (extractUpstreamMessage body))
  | .networkFailure => .error .network

/-! ## Callable proxy handler -/

/-- Structured error details attached by the callable proxy to a mapped
upstream error: the original status, rate info, and upstream message. -/
structure ErrDetails where
  status : Nat
  rateInfo : RateInfo
  upstreamMessage : String
  deriving DecidableEq, Repr

/-- Terminal outcome of the callable proxy: the upstream payload
returned verbatim, or a thrown `HttpsError` with an error-class code, a
message, and optional structured details. -/
inductive ProxyResult
  | success (payload : Payload)
  | failure (code : String) (message : String) (details : Option ErrDetails)
  deriving DecidableEq, Repr

/-- Mirror of the status-code mapping in the callable proxy: the chain
of `if (error.status === N) code = ...` assignments over the initial
value of the string for internal errors. -/
def mapStatusToCode (status : Nat) : String :=
  if status = 400 then "invalid-argument"
  else if status = 401 then "unauthenticated"
  else if status = 403 then "permission-denied"
  else if status = 404 then "not-found"
  else if status = 429 then "resource-exhausted"
  else "internal"

/-- Mirror of the callable `championRotation` handler: resolve the key
(misconfiguration when falsy), fetch upstream, return the payload on
success; on an error with a truthy `status` map it through
`mapStatusToCode` and attach the structured details, otherwise report a
generic internal failure. -/
def championRotation (kenv : KeyEnv) (fenv : FetchEnv) : ProxyResult :=
  if jsTruthy (resolveRiotApiKey kenv).key then
    match fetchRiotRotation fenv with
    | .ok (payload, _) => .success payload
    | .error (.upstream status rateInfo upstreamMessage) =>
      if status ≠ 0 then
        .failure (mapStatusToCode status) "Upstream Riot API error"
          (some ⟨status, rateInfo, upstreamMessage⟩)
      else
        .failure "internal" "Failed to contact Riot API" none
    | .error .network =>
      .failure "internal" "Failed to contact Riot API" none
  else
    .failure "internal" "Backend misconfiguration" none

/-! ## Scheduled handler -/

/-- The single persisted document (`riot/rotation`): signature, sorted
id list, and the raw payload.  The server-assigned `updatedAt` timestamp
is opaque to the logic and not modelled. -/
structure RotationRecord where
  signature : String
  freeChampionIds : List Int
  rawResponse : Payload
  deriving DecidableEq, Repr

/-- Store state: the document is either absent or present. -/
abbrev StoreState := Option RotationRecord

/-- Outcomes of the store and messaging calls made by one scheduled
invocation: whether `docRef.get()`, `docRef.set(...)`, and
`messaging.send(...)` succeed or throw. -/
structure SchedEnv where
  fetch : FetchEnv
  readOk : Bool
  writeOk : Bool
  publishOk : Bool
  deriving DecidableEq, Repr

/-- Side effects of one scheduled invocation: the store writes performed
(in order), the number of publish attempts made, and the resulting store
state. -/
structure SchedEffects where
  writes : List RotationRecord
  publishAttempts : Nat
  finalState : StoreState
  deriving DecidableEq, Repr

/-- The error thrown inside the scheduled handler's try block, if any. -/
inductive SchedError
  | fetchFailed (e : RiotError)
  | readFailed
  | writeFailed
  | publishFailed
  deriving DecidableEq, Repr

/-- Result of one scheduled invocation: the effects performed and the
exception escaping the handler, if any. -/
structure SchedOutcome where
  effects : SchedEffects
  propagated : Option SchedError
  deriving DecidableEq, Repr

/-- The body of the scheduled handler's try block, run against store
state `st`: fetch upstream, compute the signature, read the stored
record (`null` signature when absent), and when the signature changed
write the replacement record with `docRef.set` (a full replace, no
merge) and then attempt one publish.  Returns the effects performed up
to the first throwing call together with the error, if one was thrown. -/
def scheduledTryBody (env : SchedEnv) (st : StoreState) : SchedEffects × Option SchedError :=
  match fetchRiotRotation env.fetch with
  | .error e => (⟨[], 0, st⟩, some (.fetchFailed e))
  | .ok (payload, _) =>
    if env.readOk then
      let ids := sortIds (computeIds payload)
      let signature := joinIds ids
      let prevSignature : Option String := st.map RotationRecord.signature
      if prevSignature = some signature then
        (⟨[], 0, st⟩, none)
      else if env.writeOk then
        let newRec : RotationRecord := ⟨signature, ids, payload⟩
        if env.publishOk then
          (⟨[newRec], 1, some newRec⟩, none)
        else
          (⟨[newRec], 1, some newRec⟩, some .publishFailed)
      else
        (⟨[], 0, st⟩, some .writeFailed)
    else
      (⟨[], 0, st⟩, some .readFailed)

/-- Mirror of the scheduled `checkChampionRotation` handler: resolve the
key and return silently when it is falsy; otherwise run the body inside
a try/catch whose catch clause only logs, so no error escapes. -/
def checkChampionRotation (kenv : KeyEnv) (env : SchedEnv) (st : StoreState) : SchedOutcome :=
  if jsTruthy (resolveRiotApiKey kenv).key then
    let r := scheduledTryBody env st
    ⟨r.1, none⟩
  else
    ⟨⟨[], 0, st⟩, none⟩

/-- The record the scheduled handler writes for a payload. -/
def mkRecord (p : Payload) : RotationRecord :=
  ⟨computeSignature p, sortIds (computeIds p), p⟩

/-- Spec-side helper for the key-resolution contract: the first
non-empty (truthy) value in a list of optional strings. -/
def firstNonEmpty : List (Option String) → Option String
  | [] => none
  | v :: rest => if jsTruthy v then v else firstNonEmpty rest

/-! ## Helper lemmas -/

theorem sortIds_sorted (l : List Int) : List.Sorted (· ≤ ·) (sortIds l) :=
  List.sorted_insertionSort _ l

theorem sortIds_perm (l : List Int) : List.Perm (sortIds l) l :=
  List.perm_insertionSort _ l

theorem sortIds_eq_of_perm {l l' : List Int} (h : List.Perm l l') :
    sortIds l = sortIds l' :=
  List.eq_of_perm_of_sorted ((sortIds_perm l).trans (h.trans (sortIds_perm l').symm))
    (sortIds_sorted l) (sortIds_sorted l')

theorem sortIds_idem (l : List Int) : sortIds (sortIds l) = sortIds l :=
  (sortIds_sorted l).insertionSort_eq

theorem truncate2000_length_le (s : String) : (truncate2000 s).length ≤ 2000 := by
  have : (truncate2000 s).length = (s.data.take 2000).length := rfl
  rw [this, List.length_take]
  exact min_le_left _ _

/-! ## Claim theorems -/

/-- C3: for every list of integers and every permutation of it, the
signature computed by the scheduled handler (copy, sort ascending
numerically, join with a comma) is identical for the original list and
the permuted list. -/
theorem computeSignature_perm_invariant (l l' : List Int) (n n' : Nat)
    (h : List.Perm l l') :
    computeSignature ⟨.arr l, n⟩ = computeSignature ⟨.arr l', n'⟩ := by
  simp only [computeSignature, computeIds]
  rw [sortIds_eq_of_perm h]

/-- Witness for C3 at a concrete permutation. -/
theorem computeSignature_perm_invariant_witness :
    List.Perm [3, 1, 2] [1, 2, 3] ∧
      computeSignature ⟨.arr [3, 1, 2], 0⟩ = computeSignature ⟨.arr [1, 2, 3], 5⟩ :=
  ⟨by decide, computeSignature_perm_invariant [3, 1, 2] [1, 2, 3] 0 5 (by decide)⟩

/-- C4: for every payload in which the freeChampionIds field is absent,
null, or not an array, the signature computation in the scheduled
handler yields the empty string (and, being a total function, never
throws). -/
theorem computeSignature_defensive (n : Nat) :
    computeSignature ⟨.absent, n⟩ = "" ∧ computeSignature ⟨.null, n⟩ = "" ∧
      computeSignature ⟨.nonArray, n⟩ = "" :=
  ⟨rfl, rfl, rfl⟩

/-- C1: in the scheduled handler, with every external call succeeding, a
store write followed by a notification publish occurs if and only if the
stored signature differs from the newly computed signature (a missing
stored record having a null stored signature); when no stored record
exists the run always writes and publishes, regardless of payload
content, and when the signatures are equal neither happens. -/
theorem checkChampionRotation_change_detection
    (kenv : KeyEnv) (hkey : jsTruthy (resolveRiotApiKey kenv).key = true)
    (p : Payload) (ri : RateInfo) (st : StoreState) :
    ((checkChampionRotation kenv ⟨.ok p ri, true, true, true⟩ st).effects.writes = [mkRecord p] ∧
        (checkChampionRotation kenv ⟨.ok p ri, true, true, true⟩ st).effects.publishAttempts = 1 ↔
      st.map RotationRecord.signature ≠ some (computeSignature p)) ∧
    (st = none →
      (checkChampionRotation kenv ⟨.ok p ri, true, true, true⟩ st).effects.writes = [mkRecord p] ∧
        (checkChampionRotation kenv ⟨.ok p ri, true, true, true⟩ st).effects.publishAttempts = 1) ∧
    (st.map RotationRecord.signature = some (computeSignature p) →
      (checkChampionRotation kenv ⟨.ok p ri, true, true, true⟩ st).effects.writes = [] ∧
        (checkChampionRotation kenv ⟨.ok p ri, true, true, true⟩ st).effects.publishAttempts = 0) := by
  cases st with
  | none =>
    refine ⟨?_, fun _ => ?_, fun h => by simp at h⟩
    · simp [checkChampionRotation, scheduledTryBody, fetchRiotRotation, hkey,
        computeSignature, mkRecord]
    · simp [checkChampionRotation, scheduledTryBody, fetchRiotRotation, hkey,
        computeSignature, mkRecord]
  | some r =>
    by_cases hr : r.signature = joinIds (sortIds (computeIds p))
    · refine ⟨?_, fun h => by simp at h, fun _ => ?_⟩
      · simp [checkChampionRotation, scheduledTryBody, fetchRiotRotation, hkey,
          computeSignature, hr, mkRecord]
      · simp [checkChampionRotation, scheduledTryBody, fetchRiotRotation, hkey,
          computeSignature, hr]
    · refine ⟨?_, fun h => by simp at h, fun h => ?_⟩
      · simp [checkChampionRotation, scheduledTryBody, fetchRiotRotation, hkey,
          computeSignature, hr, mkRecord]
      · exact absurd (by simpa [computeSignature] using h) hr

/-- Witness for C1: a first-ever run (no stored record) on a concrete
payload writes and publishes. -/
theorem checkChampionRotation_change_detection_witness :
    jsTruthy (resolveRiotApiKey ⟨some "k", none, none, none⟩).key = true ∧
      ((checkChampionRotation ⟨some "k", none, none, none⟩
            ⟨.ok ⟨.arr [5, 4], 0⟩ ⟨none, none, none, none⟩, true, true, true⟩ none).effects.writes =
          [mkRecord ⟨.arr [5, 4], 0⟩] ∧
        (checkChampionRotation ⟨some "k", none, none, none⟩
            ⟨.ok ⟨.arr [5, 4], 0⟩ ⟨none, none, none, none⟩, true, true, true⟩ none).effects.publishAttempts =
          1) :=
  ⟨by decide,
    (checkChampionRotation_change_detection ⟨some "k", none, none, none⟩ (by decide)
        ⟨.arr [5, 4], 0⟩ ⟨none, none, none, none⟩ none).2.1 rfl⟩

/-- C6: invoking the scheduled handler twice in succession with an
unchanged upstream payload and all external calls succeeding, starting
from a state whose stored signature differs from the computed one (in
particular from a missing record), performs exactly one store write and
one publish on the first invocation, and the second invocation is a pure
no-op: no write, no publish, state unchanged. -/
theorem checkChampionRotation_idempotent
    (kenv : KeyEnv) (hkey : jsTruthy (resolveRiotApiKey kenv).key = true)
    (p : Payload) (ri : RateInfo) (st : StoreState)
    (hchanged : st.map RotationRecord.signature ≠ some (computeSignature p)) :
    ((checkChampionRotation kenv ⟨.ok p ri, true, true, true⟩ st).effects.writes = [mkRecord p] ∧
      (checkChampionRotation kenv ⟨.ok p ri, true, true, true⟩ st).effects.publishAttempts = 1 ∧
      (checkChampionRotation kenv ⟨.ok p ri, true, true, true⟩ st).effects.finalState =
        some (mkRecord p)) ∧
    ((checkChampionRotation kenv ⟨.ok p ri, true, true, true⟩
          (checkChampionRotation kenv ⟨.ok p ri, true, true, true⟩ st).effects.finalState).effects.writes =
        [] ∧
      (checkChampionRotation kenv ⟨.ok p ri, true, true, true⟩
          (checkChampionRotation kenv ⟨.ok p ri, true, true, true⟩ st).effects.finalState).effects.publishAttempts =
        0 ∧
      (checkChampionRotation kenv ⟨.ok p ri, true, true, true⟩
          (checkChampionRotation kenv ⟨.ok p ri, true, true, true⟩ st).effects.finalState).effects.finalState =
        (checkChampionRotation kenv ⟨.ok p ri, true, true, true⟩ st).effects.finalState) := by
  have hfirst :
      checkChampionRotation kenv ⟨.ok p ri, true, true, true⟩ st =
        ⟨⟨[mkRecord p], 1, some (mkRecord p)⟩, none⟩ := by
    cases st with
    | none =>
      simp [checkChampionRotation, scheduledTryBody, fetchRiotRotation, hkey,
        computeSignature, mkRecord]
    | some r =>
      have hr : ¬(r.signature = joinIds (sortIds (computeIds p))) := by
        simpa [computeSignature] using hchanged
      simp [checkChampionRotation, scheduledTryBody, fetchRiotRotation, hkey,
        computeSignature, mkRecord, hr]
  rw [hfirst]
  refine ⟨⟨rfl, rfl, rfl⟩, ?_⟩
  simp [checkChampionRotation, scheduledTryBody, fetchRiotRotation, hkey,
    computeSignature, mkRecord]

/-- Witness for C6 at a concrete payload, starting from an empty store. -/
theorem checkChampionRotation_idempotent_witness :
    jsTruthy (resolveRiotApiKey ⟨some "k", none, none, none⟩).key = true ∧
      (none : StoreState).map RotationRecord.signature ≠
        some (computeSignature ⟨.arr [5, 4], 0⟩) ∧
      (checkChampionRotation ⟨some "k", none, none, none⟩
          ⟨.ok ⟨.arr [5, 4], 0⟩ ⟨none, none, none, none⟩, true, true, true⟩
          (checkChampionRotation ⟨some "k", none, none, none⟩
              ⟨.ok ⟨.arr [5, 4], 0⟩ ⟨none, none, none, none⟩, true, true, true⟩
              none).effects.finalState).effects.writes = [] :=
  ⟨by decide, by decide,
    ((checkChampionRotation_idempotent ⟨some "k", none, none, none⟩ (by decide)
        ⟨.arr [5, 4], 0⟩ ⟨none, none, none, none⟩ none (by decide)).2).1⟩

/-- C7: in the scheduled handler, a failed upstream fetch leaves the
state untouched with no write and no publish; a failed store write ends
the run before any publish attempt; and a failed publish after a
successful write leaves the written state in place. -/
theorem checkChampionRotation_failure_isolation
    (kenv : KeyEnv) (hkey : jsTruthy (resolveRiotApiKey kenv).key = true)
    (st : StoreState) :
    (∀ status ri body readOk writeOk publishOk,
      (checkChampionRotation kenv ⟨.httpError status ri body, readOk, writeOk, publishOk⟩ st).effects =
        ⟨[], 0, st⟩) ∧
    (∀ readOk writeOk publishOk,
      (checkChampionRotation kenv ⟨.networkFailure, readOk, writeOk, publishOk⟩ st).effects =
        ⟨[], 0, st⟩) ∧
    (∀ p ri publishOk,
      (checkChampionRotation kenv ⟨.ok p ri, true, false, publishOk⟩ st).effects.writes = [] ∧
      (checkChampionRotation kenv ⟨.ok p ri, true, false, publishOk⟩ st).effects.publishAttempts = 0 ∧
      (checkChampionRotation kenv ⟨.ok p ri, true, false, publishOk⟩ st).effects.finalState = st) ∧
    (∀ p ri, st.map RotationRecord.signature ≠ some (computeSignature p) →
      (checkChampionRotation kenv ⟨.ok p ri, true, true, false⟩ st).effects.writes = [mkRecord p] ∧
      (checkChampionRotation kenv ⟨.ok p ri, true, true, false⟩ st).effects.publishAttempts = 1 ∧
      (checkChampionRotation kenv ⟨.ok p ri, true, true, false⟩ st).effects.finalState =
        some (mkRecord p)) := by
  refine ⟨?_, ?_, ?_, ?_⟩
  · intro status ri body readOk writeOk publishOk
    simp [checkChampionRotation, scheduledTryBody, fetchRiotRotation, hkey]
  · intro readOk writeOk publishOk
    simp [checkChampionRotation, scheduledTryBody, fetchRiotRotation, hkey]
  · intro p ri publishOk
    cases st with
    | none =>
      simp [checkChampionRotation, scheduledTryBody, fetchRiotRotation, hkey]
    | some r =>
      by_cases hr : r.signature = joinIds (sortIds (computeIds p))
      · simp [checkChampionRotation, scheduledTryBody, fetchRiotRotation, hkey, hr]
      · simp [checkChampionRotation, scheduledTryBody, fetchRiotRotation, hkey, hr]
  · intro p ri hchanged
    cases st with
    | none =>
      simp [checkChampionRotation, scheduledTryBody, fetchRiotRotation, hkey,
        computeSignature, mkRecord]
    | some r =>
      have hr : ¬(r.signature = joinIds (sortIds (computeIds p))) := by
        simpa [computeSignature] using hchanged
      simp [checkChampionRotation, scheduledTryBody, fetchRiotRotation, hkey,
        computeSignature, mkRecord, hr]

/-- Witness for C7: with a concrete store state, a failed fetch leaves
everything untouched. -/
theorem checkChampionRotation_failure_isolation_witness :
    jsTruthy (resolveRiotApiKey ⟨some "k", none, none, none⟩).key = true ∧
      (checkChampionRotation ⟨some "k", none, none, none⟩
          ⟨.httpError 500 ⟨none, none, none, none⟩ (.text "oops"), true, true, true⟩
          none).effects = ⟨[], 0, none⟩ :=
  ⟨by decide,
    (checkChampionRotation_failure_isolation ⟨some "k", none, none, none⟩ (by decide)
        none).1 500 ⟨none, none, none, none⟩ (.text "oops") true true true⟩

/-- C8: every record written by the scheduled handler has a signature
equal to the comma-joined, ascending-sorted string form of its
freeChampionIds field (whose ids are indeed sorted ascending), and the
write fully replaces the single stored document: the resulting state is
exactly the written record, whatever was stored before. -/
theorem checkChampionRotation_record_invariant
    (kenv : KeyEnv) (env : SchedEnv) (st : StoreState) (r : RotationRecord)
    (hr : r ∈ (checkChampionRotation kenv env st).effects.writes) :
    r.signature = joinIds (sortIds r.freeChampionIds) ∧
      List.Sorted (· ≤ ·) r.freeChampionIds ∧
      (checkChampionRotation kenv env st).effects.finalState = some r := by
  rcases env with ⟨fetch, readOk, writeOk, publishOk⟩
  by_cases hkey : jsTruthy (resolveRiotApiKey kenv).key
  · cases fetch with
    | httpError status ri body =>
      simp [checkChampionRotation, scheduledTryBody, fetchRiotRotation, hkey] at hr
    | networkFailure =>
      simp [checkChampionRotation, scheduledTryBody, fetchRiotRotation, hkey] at hr
    | ok p ri =>
      cases readOk with
      | false =>
        simp [checkChampionRotation, scheduledTryBody, fetchRiotRotation, hkey] at hr
      | true =>
        by_cases hc : st.map RotationRecord.signature = some (joinIds (sortIds (computeIds p)))
        · simp [checkChampionRotation, scheduledTryBody, fetchRiotRotation, hkey, hc] at hr
        · cases writeOk with
          | false =>
            simp [checkChampionRotation, scheduledTryBody, fetchRiotRotation, hkey, hc] at hr
          | true =>
            have hval :
                r = ⟨joinIds (sortIds (computeIds p)), sortIds (computeIds p), p⟩ ∧
                  (checkChampionRotation kenv ⟨.ok p ri, true, true, publishOk⟩ st).effects.finalState =
                    some ⟨joinIds (sortIds (computeIds p)), sortIds (computeIds p), p⟩ := by
              cases publishOk with
              | false =>
                refine ⟨?_, ?_⟩
                · simpa [checkChampionRotation, scheduledTryBody, fetchRiotRotation, hkey, hc]
                    using hr
                · simp [checkChampionRotation, scheduledTryBody, fetchRiotRotation, hkey, hc]
              | true =>
                refine ⟨?_, ?_⟩
                · simpa [checkChampionRotation, scheduledTryBody, fetchRiotRotation, hkey, hc]
                    using hr
                · simp [checkChampionRotation, scheduledTryBody, fetchRiotRotation, hkey, hc]
            rcases hval with ⟨hval, hfinal⟩
            subst hval
            refine ⟨by simp [sortIds_idem], sortIds_sorted _, hfinal⟩
  · simp [checkChampionRotation, hkey] at hr

/-- Witness for C8: the record written on a concrete first run
satisfies the invariant. -/
theorem checkChampionRotation_record_invariant_witness :
    mkRecord ⟨.arr [5, 4], 0⟩ ∈
        (checkChampionRotation ⟨some "k", none, none, none⟩
            ⟨.ok ⟨.arr [5, 4], 0⟩ ⟨none, none, none, none⟩, true, true, true⟩
            none).effects.writes ∧
      (mkRecord ⟨.arr [5, 4], 0⟩).signature =
        joinIds (sortIds (mkRecord ⟨.arr [5, 4], 0⟩).freeChampionIds) :=
  ⟨by decide,
    (checkChampionRotation_record_invariant ⟨some "k", none, none, none⟩
        ⟨.ok ⟨.arr [5, 4], 0⟩ ⟨none, none, none, none⟩, true, true, true⟩
        none (mkRecord ⟨.arr [5, 4], 0⟩) (by decide)).1⟩

/-- C10: the scheduled handler never propagates an exception to its
caller: for every outcome of the upstream fetch, store read, store
write, and notification publish, and every key environment and store
state, the handler completes normally (the body's error, if any, is
swallowed by the catch clause). -/
theorem checkChampionRotation_no_propagation
    (kenv : KeyEnv) (env : SchedEnv) (st : StoreState) :
    (checkChampionRotation kenv env st).propagated = none := by
  by_cases hkey : jsTruthy (resolveRiotApiKey kenv).key
  · simp [checkChampionRotation, hkey]
  · simp [checkChampionRotation, hkey]

/-- C2: in the callable proxy, upstream statuses 400, 401, 403, 404 and
429 map respectively to the invalid-argument, unauthenticated,
permission-denied, not-found and resource-exhausted error classes;
every other (truthy) status maps to internal; the absence of a status
(network failure) maps to internal; and every status-mapped error
carries the original status, rate info, and upstream message as
structured details. -/
theorem championRotation_error_mapping
    (kenv : KeyEnv) (hkey : jsTruthy (resolveRiotApiKey kenv).key = true)
    (status : Nat) (ri : RateInfo) (body : ErrorBody) :
    (status = 400 →
      championRotation kenv (.httpError status ri body) =
        .failure "invalid-argument" "Upstream Riot API error"
          (some ⟨status, ri, extractUpstreamMessage body⟩)) ∧
    (status = 401 →
      championRotation kenv (.httpError status ri body) =
        .failure "unauthenticated" "Upstream Riot API error"
          (some ⟨status, ri, extractUpstreamMessage body⟩)) ∧
    (status = 403 →
      championRotation kenv (.httpError status ri body) =
        .failure "permission-denied" "Upstream Riot API error"
          (some ⟨status, ri, extractUpstreamMessage body⟩)) ∧
    (status = 404 →
      championRotation kenv (.httpError status ri body) =
        .failure "not-found" "Upstream Riot API error"
          (some ⟨status, ri, extractUpstreamMessage body⟩)) ∧
    (status = 429 →
      championRotation kenv (.httpError status ri body) =
        .failure "resource-exhausted" "Upstream Riot API error"
          (some ⟨status, ri, extractUpstreamMessage body⟩)) ∧
    (status ∉ ([400, 401, 403, 404, 429] : List Nat) → status ≠ 0 →
      championRotation kenv (.httpError status ri body) =
        .failure "internal" "Upstream Riot API error"
          (some ⟨status, ri, extractUpstreamMessage body⟩)) ∧
    (championRotation kenv .networkFailure =
      .failure "internal" "Failed to contact Riot API" none) := by
  refine ⟨?_, ?_, ?_, ?_, ?_, ?_, ?_⟩
  · rintro rfl
    simp [championRotation, fetchRiotRotation, mapStatusToCode, hkey]
  · rintro rfl
    simp [championRotation, fetchRiotRotation, mapStatusToCode, hkey]
  · rintro rfl
    simp [championRotation, fetchRiotRotation, mapStatusToCode, hkey]
  · rintro rfl
    simp [championRotation, fetchRiotRotation, mapStatusToCode, hkey]
  · rintro rfl
    simp [championRotation, fetchRiotRotation, mapStatusToCode, hkey]
  · intro hnotin hzero
    simp only [List.mem_cons, List.not_mem_nil, or_false, not_or] at hnotin
    obtain ⟨h400, h401, h403, h404, h429⟩ := hnotin
    simp [championRotation, fetchRiotRotation, mapStatusToCode, hkey, hzero,
      h400, h401, h403, h404, h429]
  · simp [championRotation, fetchRiotRotation, hkey]

/-- Witness for C2: a concrete 429 response maps to resource-exhausted
with the structured details attached. -/
theorem championRotation_error_mapping_witness :
    jsTruthy (resolveRiotApiKey ⟨some "k", none, none, none⟩).key = true ∧
      championRotation ⟨some "k", none, none, none⟩
          (.httpError 429 ⟨none, none, none, none⟩
            (.json (some "Rate limit exceeded") none "")) =
        .failure "resource-exhausted" "Upstream Riot API error"
          (some ⟨429, ⟨none, none, none, none⟩,
            extractUpstreamMessage (.json (some "Rate limit exceeded") none "")⟩) :=
  ⟨by decide,
    (championRotation_error_mapping ⟨some "k", none, none, none⟩ (by decide) 429
        ⟨none, none, none, none⟩
        (.json (some "Rate limit exceeded") none "")).2.2.2.2.1 rfl⟩

/-- C9: the key resolver returns the managed secret value when it is
retrievable and non-empty; when secret retrieval throws it logs a
warning and continues; otherwise it returns the first non-empty value
among RIOT_KEY, RIOT_API_KEY and RIOT_TOKEN in that order, and its
result is falsy (undefined or empty) when none are set. -/
theorem resolveRiotApiKey_spec (env : KeyEnv) :
    (∀ s, env.secretValue = some s → s ≠ "" → (resolveRiotApiKey env).key = some s) ∧
    (env.secretValue = none → (resolveRiotApiKey env).warnedSecret = true) ∧
    (jsTruthy env.secretValue = false →
      ∀ v, firstNonEmpty [env.RIOT_KEY, env.RIOT_API_KEY, env.RIOT_TOKEN] = some v →
        (resolveRiotApiKey env).key = some v) ∧
    (jsTruthy env.secretValue = false →
      firstNonEmpty [env.RIOT_KEY, env.RIOT_API_KEY, env.RIOT_TOKEN] = none →
        jsTruthy (resolveRiotApiKey env).key = false) := by
  rcases env with ⟨sv, k1, k2, k3⟩
  refine ⟨?_, ?_, ?_, ?_⟩
  · rintro s rfl hs
    simp [resolveRiotApiKey, jsOr, jsTruthy, hs]
  · rintro rfl
    rfl
  · intro hsv v hfirst
    have hkey :
        (resolveRiotApiKey ⟨sv, k1, k2, k3⟩).key = jsOr k1 (jsOr k2 k3) := by
      cases sv with
      | none => simp [resolveRiotApiKey, jsOr, jsTruthy]
      | some s =>
        have hs : s = "" := by
          by_contra hne
          simp [jsTruthy, hne] at hsv
        subst hs
        simp [resolveRiotApiKey, jsOr, jsTruthy]
    rw [hkey]
    by_cases h1 : jsTruthy k1
    · simp [firstNonEmpty, h1] at hfirst
      subst hfirst
      simp [jsOr, h1]
    · by_cases h2 : jsTruthy k2
      · simp [firstNonEmpty, h1, h2] at hfirst
        subst hfirst
        simp [jsOr, h1, h2]
      · by_cases h3 : jsTruthy k3
        · simp [firstNonEmpty, h1, h2, h3] at hfirst
          subst hfirst
          simp [jsOr, h1, h2, h3]
        · simp [firstNonEmpty, h1, h2, h3] at hfirst
  · intro hsv hfirst
    have hkey :
        (resolveRiotApiKey ⟨sv, k1, k2, k3⟩).key = jsOr k1 (jsOr k2 k3) := by
      cases sv with
      | none => simp [resolveRiotApiKey, jsOr, jsTruthy]
      | some s =>
        have hs : s = "" := by
          by_contra hne
          simp [jsTruthy, hne] at hsv
        subst hs
        simp [resolveRiotApiKey, jsOr, jsTruthy]
    rw [hkey]
    by_cases h1 : jsTruthy k1
    · simp [firstNonEmpty, h1] at hfirst
      rw [hfirst] at h1
      simp [jsTruthy] at h1
    · by_cases h2 : jsTruthy k2
      · simp [firstNonEmpty, h1, h2] at hfirst
        rw [hfirst] at h2
        simp [jsTruthy] at h2
      · by_cases h3 : jsTruthy k3
        · simp [firstNonEmpty, h1, h2, h3] at hfirst
          rw [hfirst] at h3
          simp [jsTruthy] at h3
        · simp [jsOr, h1, h2, h3]

/-- Witness for C9: with a thrown secret read, an empty RIOT_KEY and a
set RIOT_API_KEY, the resolver returns the RIOT_API_KEY value. -/
theorem resolveRiotApiKey_spec_witness :
    jsTruthy (KeyEnv.mk none (some "") (some "abc") none).secretValue = false ∧
      firstNonEmpty [some "", some "abc", none] = some "abc" ∧
      (resolveRiotApiKey ⟨none, some "", some "abc", none⟩).key = some "abc" :=
  ⟨by decide, by decide,
    (resolveRiotApiKey_spec ⟨none, some "", some "abc", none⟩).2.2.1 (by decide)
      "abc" (by decide)⟩

/-- A 2001-character message sitting in the nested status field of an
upstream error body. -/
def longStatusMessage : String :=
  ⟨List.replicate 2001 (Char.ofNat 97)⟩

/-- C5 counterexample: an upstream error body whose nested status
message has 2001 characters is extracted unmodified, so the extracted
upstreamMessage exceeds 2000 characters. -/
theorem extractUpstreamMessage_length_counterexample :
    ¬ (extractUpstreamMessage (.json (some longStatusMessage) none "")).length ≤ 2000 := by
  have hmsg : extractUpstreamMessage (.json (some longStatusMessage) none "") =
      longStatusMessage := by
    have hne : ¬(longStatusMessage = "") := by decide
    simp [extractUpstreamMessage, jsOr, jsTruthy, hne]
  rw [hmsg]
  have hlen : longStatusMessage.length = 2001 := by
    have h : longStatusMessage.length = (List.replicate 2001 (Char.ofNat 97)).length := rfl
    rw [h, List.length_replicate]
  omega

/-- C5 amended: for every non-2xx upstream response, the extracted
upstreamMessage is at most 2000 characters when it is taken from the
JSON dump of the parsed body or from the raw body text; a message taken
from the nested status message field or from the top-level message field
is returned unmodified and may exceed 2000 characters. -/
theorem extractUpstreamMessage_truncation (sm tm : Option String) (dump raw : String) :
    ((extractUpstreamMessage (.text raw)).length ≤ 2000) ∧
    (jsTruthy sm = false → jsTruthy tm = false →
      (extractUpstreamMessage (.json sm tm dump)).length ≤ 2000) ∧
    (∀ s, sm = some s → s ≠ "" → extractUpstreamMessage (.json sm tm dump) = s) ∧
    (∀ s, jsTruthy sm = false → tm = some s → s ≠ "" →
      extractUpstreamMessage (.json sm tm dump) = s) := by
  refine ⟨truncate2000_length_le raw, ?_, ?_, ?_⟩
  · intro hsm htm
    simp [extractUpstreamMessage, jsOr, hsm, htm]
    exact truncate2000_length_le dump
  · rintro s rfl hs
    simp [extractUpstreamMessage, jsOr, jsTruthy, hs]
  · rintro s hsm rfl hs
    have hts : jsTruthy (some s) = true := by simp [jsTruthy, hs]
    simp [extractUpstreamMessage, jsOr, hsm, hts]

/-- Witness for the amended C5: a body without message fields whose
JSON dump has 2001 characters yields a 2000-character-bounded message. -/
theorem extractUpstreamMessage_truncation_witness :
    jsTruthy (none : Option String) = false ∧
      (extractUpstreamMessage (.json none none longStatusMessage)).length ≤ 2000 :=
  ⟨by decide,
    (extractUpstreamMessage_truncation none none longStatusMessage "x").2.1 rfl rfl⟩

end Rotation
